import Mathlib

/-!
Verification development for the aidaily-digest repository: a shallow
embedding in Lean 4 of the Python modules under `scripts/` and `tgbot/`,
together with theorems settling behavioural claims about them.

Conventions used throughout:
* Python strings are modelled as Lean `String` (a list of unicode scalar
  values, matching Python's code-point view of `str`).
* `None`-able values are `Option`; Python truthiness of a string is
  "non-empty", of an optional string "present and non-empty".
* External effects (HTTP fetches, LLM completions, the Twitter API, JSON
  parsing from the standard library, database round-trips) are passed in as
  explicit function parameters ("oracles") so that every code path of the
  repository's own logic is represented.
* Bounded recursion from the source is mirrored with an explicit fuel
  argument chosen large enough to never be exhausted on the source's own
  call pattern; each such definition documents the sufficiency argument.
-/

/-! ## Models of Python primitives (standard library, outside the repository) -/

/-- Whitespace predicate used by Python's `str.strip` / `str.rstrip`,
restricted to the ASCII whitespace characters (space, tab, LF, CR, VT, FF);
exotic Unicode space characters are not modelled. -/
def pyIsSpace (c : Char) : Bool :=
  c = ' ' || c = '\t' || c = '\n' || c = '\r' || c = Char.ofNat 11 || c = Char.ofNat 12

/-- Model of Python `str.strip()`: remove leading and trailing whitespace. -/
def pyStrip (s : String) : String :=
  String.mk (((s.data.dropWhile pyIsSpace).reverse.dropWhile pyIsSpace).reverse)

/-- Model of Python `str.rstrip()`: remove trailing whitespace. -/
def pyRstrip (s : String) : String :=
  String.mk ((s.data.reverse.dropWhile pyIsSpace).reverse)

/-- Model of Python `str.lower()`, restricted to ASCII case mapping. -/
def pyLower (s : String) : String :=
  String.mk (s.data.map Char.toLower)

/-- Python slice `s[:n]` (by code points). -/
def strTake (s : String) (n : Nat) : String :=
  String.mk (s.data.take n)

/-- Python slice `s[n:]` (by code points). -/
def strDrop (s : String) (n : Nat) : String :=
  String.mk (s.data.drop n)

/-- Python slice `s[:-n]` (by code points; the empty string when `n` exceeds
the length, as in Python). -/
def strDropRight (s : String) (n : Nat) : String :=
  String.mk (s.data.take (s.data.length - n))

/-- Model of Python `str.startswith`. -/
def strStartsWith (s p : String) : Bool :=
  p.data.isPrefixOf s.data

/-- Model of Python `str.endswith`. -/
def strEndsWith (s p : String) : Bool :=
  p.data.reverse.isPrefixOf s.data.reverse

/-- Model of Python `str.split(sep)` for a single-character separator:
split on every occurrence, keeping empty pieces. -/
def pySplitOn (sep : Char) : List Char → List (List Char)
  | [] => [[]]
  | c :: cs =>
    let rest := pySplitOn sep cs
    if c = sep then [] :: rest
    else
      match rest with
      | [] => [[c]]
      | r :: rs => (c :: r) :: rs

/-- Model of Python `str.split(',')` on `String`s. -/
def pySplitComma (s : String) : List String :=
  (pySplitOn ',' s.data).map String.mk

/-- Digits of a decimal-digit character list as a number, `none` if any
character is not an ASCII digit or the list is empty. -/
def digitsToNat : List Char → Option Nat
  | [] => none
  | ds => ds.foldl (fun acc c => match acc with
      | some n => if c.isDigit then some (10 * n + (c.toNat - 48)) else none
      | none => none) (some 0)

/-- Model of Python `int(s)`: strip whitespace, optional sign, decimal
digits; failure is the `ValueError` that `int` raises. -/
def pyInt (s : String) : Except String Int :=
  let t := (pyStrip s).data
  match t with
  | '-' :: ds =>
    match digitsToNat ds with
    | some n => Except.ok (-(n : Int))
    | none => Except.error ("invalid literal for int: " ++ s)
  | '+' :: ds =>
    match digitsToNat ds with
    | some n => Except.ok (n : Int)
    | none => Except.error ("invalid literal for int: " ++ s)
  | ds =>
    match digitsToNat ds with
    | some n => Except.ok (n : Int)
    | none => Except.error ("invalid literal for int: " ++ s)

/-- Auxiliary for thousands grouping: input is the reversed digit list,
`k` counts digits already emitted; a comma is inserted before every digit at
a positive multiple of three. -/
def commaGroupAux : List Char → Nat → List Char
  | [], _ => []
  | c :: cs, k =>
    (if 0 < k ∧ k % 3 = 0 then [','] ++ [c] else [c]) ++ commaGroupAux cs (k + 1)

/-- Model of Python format spec `{n:,}` for a natural number. -/
def pyFormatComma (n : Nat) : String :=
  String.mk ((commaGroupAux (toString n).data.reverse 0).reverse)

/-- Worker for `pyTitle`; the flag records whether the previous character
was alphabetic. -/
def pyTitleGo : List Char → Bool → List Char
  | [], _ => []
  | c :: cs, prevAlpha =>
    (if c.isAlpha then (if prevAlpha then c.toLower else c.toUpper) else c)
      :: pyTitleGo cs c.isAlpha

/-- Model of Python `str.title()`, restricted to ASCII letters. -/
def pyTitle (s : String) : String :=
  String.mk (pyTitleGo s.data false)

/-- Python truthiness of an optional string: present and non-empty. -/
def pyTruthyOptStr : Option String → Bool
  | some s => s ≠ ""
  | none => false

/-! ### Model of Python `html.unescape` (standard library)

Restricted to the five basic named character references
(`&amp; &lt; &gt; &quot; &apos;`) and decimal / hexadecimal numeric
character references with a terminating semicolon and a valid scalar value.
Other references (the long HTML5 named table, semicolon-less forms,
out-of-range numerics) are left untouched, which suffices for every input
considered in this development. -/

/-- Named character references recognised by the model. -/
def namedEntities : List (List Char × Char) :=
  [("amp;".data, '&'), ("lt;".data, '<'), ("gt;".data, '>'),
   ("quot;".data, '"'), ("apos;".data, Char.ofNat 39)]

/-- Match one of the named references at the head of the list. -/
def matchEntityList : List (List Char × Char) → List Char → Option (Char × List Char)
  | [], _ => none
  | (pat, d) :: rest, cs =>
    if pat.isPrefixOf cs then some (d, cs.drop pat.length) else matchEntityList rest cs

/-- Valid unicode scalar value (the range accepted by `Char`). -/
def isValidScalar (n : Nat) : Bool :=
  n < 0xD800 || (0xE000 ≤ n && n < 0x110000)

/-- Hexadecimal digit value. -/
def hexDigitVal (c : Char) : Option Nat :=
  if c.isDigit then some (c.toNat - 48)
  else if 'a' ≤ c ∧ c ≤ 'f' then some (c.toNat - 87)
  else if 'A' ≤ c ∧ c ≤ 'F' then some (c.toNat - 55)
  else none

/-- Hex digits of a character list as a number, `none` on empty or non-hex. -/
def hexToNat : List Char → Option Nat
  | [] => none
  | ds => ds.foldl (fun acc c => match acc, hexDigitVal c with
      | some n, some v => some (16 * n + v)
      | _, _ => none) (some 0)

/-- Parse a character reference immediately after a `&`; returns the decoded
character and the remaining input. -/
def parseCharRef (cs : List Char) : Option (Char × List Char) :=
  match cs with
  | '#' :: rest =>
    match rest with
    | x :: rest2 =>
      if x = 'x' ∨ x = 'X' then
        let ds := rest2.takeWhile (fun c => (hexDigitVal c).isSome)
        match rest2.drop ds.length with
        | ';' :: r2 =>
          match hexToNat ds with
          | some v => if isValidScalar v then some (Char.ofNat v, r2) else none
          | none => none
        | _ => none
      else
        let ds := rest.takeWhile Char.isDigit
        match rest.drop ds.length with
        | ';' :: r2 =>
          match digitsToNat ds with
          | some v => if isValidScalar v then some (Char.ofNat v, r2) else none
          | none => none
        | _ => none
    | [] => none
  | _ => matchEntityList namedEntities cs

/-- Worker for `htmlUnescape`; fuel-indexed, each step consumes at least one
input character so fuel `cs.length` always suffices. -/
def htmlUnescapeGo : Nat → List Char → List Char
  | 0, cs => cs
  | fuel + 1, cs =>
    match cs with
    | [] => []
    | c :: rest =>
      if c = '&' then
        match parseCharRef rest with
        | some (d, r2) => d :: htmlUnescapeGo fuel r2
        | none => c :: htmlUnescapeGo fuel rest
      else c :: htmlUnescapeGo fuel rest

/-- Model of Python `html.unescape` (see the section comment for the
modelled subset). -/
def htmlUnescape (s : String) : String :=
  String.mk (htmlUnescapeGo s.data.length s.data)

/-! ## `scripts/src/utils/validation_utils.py` -/

/-- Characters removed by `sanitize_text`'s control-character regex:
the ranges 0x00–0x08, 0x0B–0x0C, 0x0E–0x1F and 0x7F. -/
def isStrippedCtrl (c : Char) : Bool :=
  c.toNat ≤ 8 || c.toNat = 11 || c.toNat = 12 ||
    (14 ≤ c.toNat && c.toNat ≤ 31) || c.toNat = 127

/-- Application of the control-character removal regex. -/
def removeCtrl (s : String) : String :=
  String.mk (s.data.filter (fun c => !(isStrippedCtrl c)))

/-- Embedding of `sanitize_text(text, max_length)`: empty input yields the
empty string; otherwise the text is stripped, HTML-unescaped, cleared of the
control ranges, and, when `max_length` is a truthy (non-zero) limit smaller
than the length, truncated to it with trailing whitespace removed.
The Python `not isinstance(text, str)` branch is outside this typed
embedding's domain. -/
def sanitize_text (text : String) (maxLength : Option Nat) : String :=
  if text = "" then ""
  else
    let t1 := htmlUnescape (pyStrip text)
    let t2 := removeCtrl t1
    match maxLength with
    | some m => if m ≠ 0 ∧ m < t2.length then pyRstrip (strTake t2 m) else t2
    | none => t2

/-- ASCII alphanumeric, the character class `[a-zA-Z0-9]`. -/
def isAsciiAlnum (c : Char) : Bool :=
  c.isAlpha || c.isDigit

/-- Embedding of `validate_reddit_id`: full match of `^[a-zA-Z0-9]{6,7}$`
(the `$` anchor also accepts one trailing newline, as in Python's `re`). -/
def validate_reddit_id (s : String) : Bool :=
  let cs := s.data
  let core := if cs.getLast? = some '\n' then cs.dropLast else cs
  (core.length = 6 || core.length = 7) && core.all isAsciiAlnum

/-- Embedding of `validate_score` on an integer input: clamp to the range
[-100000, 100000] (the conversion-failure branch returning 0 concerns
non-integer inputs, outside this typed embedding's domain). -/
def validate_score (n : Int) : Int :=
  max (-100000) (min 100000 n)

/-- Embedding of `validate_url`: starts with `http://` or `https://` and has
length at most 2048. -/
def validate_url (url : String) : Bool :=
  (strStartsWith url "http://" || strStartsWith url "https://") && url.length ≤ 2048

/-- The specification's description of `sanitize_text`, written from the
claim's words for comparison with the code: HTML-unescape the input, then
strip leading/trailing whitespace, then remove the control ranges, and,
when a length limit is given, truncate to at most `max_length` characters
with trailing whitespace trimmed. -/
def sanitizeTextClaimSpec (text : String) (maxLength : Option Nat) : String :=
  if text = "" then ""
  else
    let t := removeCtrl (pyStrip (htmlUnescape text))
    match maxLength with
    | some m => if m < t.length then pyRstrip (strTake t m) else t
    | none => t

/-- The amended specification of `sanitize_text`: strip leading/trailing
whitespace first, then HTML-unescape, then remove the control ranges, and,
when a non-zero length limit is given, truncate to at most `max_length`
characters with trailing whitespace trimmed. -/
def sanitizeTextSpecAmended (text : String) (maxLength : Option Nat) : String :=
  if text = "" then ""
  else
    let t := removeCtrl (htmlUnescape (pyStrip text))
    match maxLength with
    | some m => if m ≠ 0 ∧ m < t.length then pyRstrip (strTake t m) else t
    | none => t

/-! ## `scripts/src/twitter_client.py` -/

/-- Embedding of the `TweetThread` dataclass payload. -/
structure TweetThread where
  tweets : List String
deriving DecidableEq

/-- Worker for `mkTweetThread`: the `__post_init__` loop over the enumerated
tweets, `i` being the current zero-based index. -/
def tweetThreadCheck : List String → Nat → Except String Unit
  | [], _ => Except.ok ()
  | t :: ts, i =>
    if 280 < t.length then
      Except.error ("Tweet " ++ toString (i + 1) ++ " exceeds 280 characters: "
        ++ toString t.length)
    else tweetThreadCheck ts (i + 1)

/-- Embedding of `TweetThread(...)` construction: `__post_init__` raises
`ValueError` for the first tweet longer than 280 characters. -/
def mkTweetThread (tweets : List String) : Except String TweetThread :=
  match tweetThreadCheck tweets 0 with
  | Except.ok _ => Except.ok { tweets := tweets }
  | Except.error e => Except.error e

/-- Worker for `post_thread`: the loop body. The Twitter API is the oracle
`api text previousTweetId`, returning the created tweet's id on success and
`none` on any failure (no response data, rate limit, or exception). On a
failure the loop appends `none` and breaks. -/
def postThreadGo (api : String → Option String → Option String) :
    List String → Option String → List (Option String)
  | [], _ => []
  | t :: ts, prev =>
    match api t prev with
    | some tid => some tid :: postThreadGo api ts (some tid)
    | none => [none]

/-- Embedding of `TwitterClient.post_thread`: an empty thread yields `[]`;
otherwise tweets are posted in order, each replying to the previous id, and
the loop stops at the first failure, recording it as a trailing `none`. -/
def post_thread (api : String → Option String → Option String)
    (thread : TweetThread) : List (Option String) :=
  if thread.tweets = [] then [] else postThreadGo api thread.tweets none

/-! ## `scripts/src/twitter_poster.py` -/

/-- The columns of a `reddit_posts` row that `TwitterPoster` reads and
writes. -/
structure TweetPostRow where
  redditId : String
  title : String
  summary : String
  url : String
  permalink : String
  score : Int
  twitterSent : Bool
  twitterSentAt : Option String
deriving DecidableEq

/-- Embedding of `TwitterPoster.mark_post_as_tweeted`: the database update
setting `twitter_sent` and `twitter_sent_at`; `dbOk` is whether the external
update call returns data. On failure the row is untouched and `False` is
returned. -/
def mark_post_as_tweeted (dbOk : Bool) (nowTs : String) (row : TweetPostRow) :
    Bool × TweetPostRow :=
  if dbOk then
    (true, { row with twitterSent := true, twitterSentAt := some nowTs })
  else (false, row)

/-- Embedding of `TwitterPoster.post_tweet_for_reddit_post`. Thread
generation (`generate_humorous_tweet_thread`, an LLM call) is the oracle
`gen`; a raised generation error lands in the surrounding `except` and the
function returns `False`. Otherwise the thread is posted and, only when
every returned id is present, the post is marked as tweeted; the result is
the success flag together with the (possibly updated) row. -/
def post_tweet_for_reddit_post (gen : Except String TweetThread)
    (api : String → Option String → Option String)
    (dbOk : Bool) (nowTs : String) (row : TweetPostRow) : Bool × TweetPostRow :=
  match gen with
  | Except.error _ => (false, row)
  | Except.ok thread =>
    let tweetIds := post_thread api thread
    if tweetIds.all (fun tid => tid.isSome) then
      mark_post_as_tweeted dbOk nowTs row
    else (false, row)

/-! ## `scripts/src/config/config_models.py` -/

/-- Embedding of the `RedditConfig` dataclass. -/
structure RedditConfig where
  clientId : String
  clientSecret : String
  username : String
  password : String
  userAgent : String
deriving DecidableEq

/-- Embedding of the `SupabaseConfig` dataclass. -/
structure SupabaseConfig where
  url : String
  key : String
deriving DecidableEq

/-- Embedding of the `FetchConfig` dataclass. Counts and lengths are kept
as `Nat` (they are non-negative in every default and use in the source);
score thresholds are `Int`. -/
structure FetchConfig where
  fetchComments : Bool := true
  maxCommentsPerPost : Nat := 10
  maxCommentDepth : Nat := 2
  minCommentScore : Int := 2
  targetSubreddits : List String := []
  minSubmissionScore : Int := 5
  maxTitleLength : Nat := 300
  maxContentLength : Nat := 40000
  maxCommentLength : Nat := 10000
deriving DecidableEq

/-- Python `os.getenv(name) or ''`: an unset or empty variable becomes the
empty string. -/
def envOrEmpty (env : String → Option String) (name : String) : String :=
  match env name with
  | some v => v
  | none => ""

/-- Python `os.getenv(name, default)`. -/
def envOrDefault (env : String → Option String) (name defaultVal : String) : String :=
  match env name with
  | some v => v
  | none => defaultVal

/-- Missing-variable bookkeeping of `load_config_from_env`: the names of the
required variables whose value is empty, in the order the source checks
them. -/
def missingRequiredVars (reddit : RedditConfig) (supa : SupabaseConfig) : List String :=
  (if reddit.clientId = "" then ["REDDIT_CLIENT_ID"] else []) ++
  (if reddit.clientSecret = "" then ["REDDIT_CLIENT_SECRET"] else []) ++
  (if reddit.username = "" then ["REDDIT_USERNAME"] else []) ++
  (if reddit.password = "" then ["REDDIT_PASSWORD"] else []) ++
  (if supa.url = "" then ["SUPABASE_URL"] else []) ++
  (if supa.key = "" then ["SUPABASE_ANON_KEY"] else [])

/-- Parse an integer-valued environment setting with a default, as in
`int(os.getenv(name, default))`. -/
def envInt (env : String → Option String) (name defaultVal : String) : Except String Int :=
  pyInt (envOrDefault env name defaultVal)

/-- The seven `int(os.getenv(...))` conversions of `load_config_from_env`,
in source order; the first failing conversion raises. -/
def fetchIntSettings (env : String → Option String) :
    Except String (Int × Int × Int × Int × Int × Int × Int) := do
  let maxCommentsPerPost ← envInt env "MAX_COMMENTS_PER_POST" "10"
  let maxCommentDepth ← envInt env "MAX_COMMENT_DEPTH" "2"
  let minCommentScore ← envInt env "MIN_COMMENT_SCORE" "2"
  let minSubmissionScore ← envInt env "MIN_SUBMISSION_SCORE" "5"
  let maxTitleLength ← envInt env "MAX_TITLE_LENGTH" "300"
  let maxContentLength ← envInt env "MAX_CONTENT_LENGTH" "40000"
  let maxCommentLength ← envInt env "MAX_COMMENT_LENGTH" "10000"
  Except.ok (maxCommentsPerPost, maxCommentDepth, minCommentScore,
    minSubmissionScore, maxTitleLength, maxContentLength, maxCommentLength)

/-- Embedding of `load_config_from_env`. The live database connectivity
probe of `_validate_database_connection` is the oracle `dbOk`; environment
access is the oracle `env`. Errors are the `ValueError` listing every
missing variable, the `ConnectionError`, or a failed `int()` conversion. -/
def load_config_from_env (env : String → Option String) (dbOk : Bool) :
    Except String (RedditConfig × SupabaseConfig × FetchConfig) :=
  let reddit : RedditConfig := {
    clientId := envOrEmpty env "REDDIT_CLIENT_ID"
    clientSecret := envOrEmpty env "REDDIT_CLIENT_SECRET"
    username := envOrEmpty env "REDDIT_USERNAME"
    password := envOrEmpty env "REDDIT_PASSWORD"
    userAgent := envOrDefault env "REDDIT_USER_AGENT" "AI Daily Digest Fetcher 1.0" }
  let supa : SupabaseConfig := {
    url := envOrEmpty env "SUPABASE_URL"
    key := envOrEmpty env "SUPABASE_ANON_KEY" }
  let missing := missingRequiredVars reddit supa
  if missing ≠ [] then
    Except.error ("Missing required environment variables: " ++ toString missing)
  else if !dbOk then
    Except.error "Failed to connect to Supabase database"
  else
    let targetSubredditsStr := envOrDefault env "TARGET_SUBREDDITS"
      "AI_Agents,artificial,ClaudeAI,LangChain,LocalLLaMA,OpenAI,PromptEngineering,singularity"
    let targetSubreddits :=
      ((pySplitComma targetSubredditsStr).map pyStrip).filter (fun s => s ≠ "")
    match fetchIntSettings env with
    | Except.error e => Except.error e
    | Except.ok (maxCommentsPerPost, maxCommentDepth, minCommentScore,
        minSubmissionScore, maxTitleLength, maxContentLength, maxCommentLength) =>
      let fetchCfg : FetchConfig := {
        fetchComments := pyLower (envOrDefault env "FETCH_COMMENTS" "true") = "true"
        maxCommentsPerPost := maxCommentsPerPost.toNat
        maxCommentDepth := maxCommentDepth.toNat
        minCommentScore := minCommentScore
        targetSubreddits := targetSubreddits
        minSubmissionScore := minSubmissionScore
        maxTitleLength := maxTitleLength.toNat
        maxContentLength := maxContentLength.toNat
        maxCommentLength := maxCommentLength.toNat }
      Except.ok (reddit, supa, fetchCfg)

/-! ## `scripts/src/reddit_fetcher.py` — comment fetching -/

/-- Reddit comment tree as delivered by the Reddit client after
`replace_more(limit=0)`: identifier, body text, score, an optional author,
the submitter flag, and the immediate replies. -/
inductive RComment where
  | mk (id : String) (body : String) (score : Int) (author : Option String)
       (isSubmitter : Bool) (replies : List RComment)

/-- Identifier of a comment. -/
def RComment.id : RComment → String
  | .mk i _ _ _ _ _ => i

/-- Body of a comment. -/
def RComment.body : RComment → String
  | .mk _ b _ _ _ _ => b

/-- Score of a comment. -/
def RComment.score : RComment → Int
  | .mk _ _ s _ _ _ => s

/-- Replies of a comment. -/
def RComment.replies : RComment → List RComment
  | .mk _ _ _ _ _ rs => rs

/-- Embedding of `RedditFetcher._should_include_comment`: reject deleted and
removed bodies, low scores, bodies shorter than 10 trimmed characters, and
the trimmed lower-cased low-information stoplist. -/
def should_include_comment (cfg : FetchConfig) (c : RComment) : Bool :=
  if c.body = "[deleted]" ∨ c.body = "[removed]" then false
  else if c.score < cfg.minCommentScore then false
  else if (pyStrip c.body).length < 10 then false
  else if pyLower (pyStrip c.body) ∈
      ["this", "same", "yes", "no", "lol", "thanks"] then false
  else true

/-- Embedding of the validation part of `RedditFetcher.store_comment`: the
write succeeds when the comment id, post id and (truthy) parent id are valid
Reddit ids, the body is not deleted/removed, and the sanitized body is
non-empty. The external upsert itself is modelled as returning data. -/
def store_comment_ok (cfg : FetchConfig) (c : RComment) (postRedditId : String)
    (parentCommentRedditId : Option String) : Bool :=
  if !(validate_reddit_id c.id) then false
  else if !(validate_reddit_id postRedditId) then false
  else if (match parentCommentRedditId with
           | some p => p ≠ "" && !(validate_reddit_id p)
           | none => false) then false
  else if c.body = "[deleted]" ∨ c.body = "[removed]" then false
  else if sanitize_text c.body (some cfg.maxCommentLength) = "" then false
  else true

/-- The `depth` column value written by `store_comment`:
`max(0, min(10, depth))`. -/
def storedDepth (depth : Nat) : Nat :=
  min 10 depth

/-- Embedding of `RedditFetcher._fetch_comment_replies`, returning the list
of `(comment id, stored depth)` rows written, in the order the source writes
them. The source recurses only while `depth + 1 < max_comment_depth`, so the
recursion from the initial call at depth 1 is at most `max_comment_depth`
calls deep; fuel `cfg.maxCommentDepth` (spent only on descent) therefore
never runs out on the call pattern of `fetch_submission_comments`. -/
def fetch_comment_replies (cfg : FetchConfig) (postRedditId : String) :
    Nat → List RComment → String → Nat → List (String × Nat)
  | 0, _, _, _ => []
  | fuel + 1, replies, parentCommentRedditId, depth =>
    if cfg.maxCommentDepth ≤ depth then []
    else
      replies.flatMap (fun r =>
        if should_include_comment cfg r then
          if store_comment_ok cfg r postRedditId (some parentCommentRedditId) then
            (r.id, storedDepth depth) ::
              (if depth + 1 < cfg.maxCommentDepth then
                fetch_comment_replies cfg postRedditId fuel r.replies r.id (depth + 1)
              else [])
          else []
        else [])

/-- Worker for `fetch_submission_comments`: the loop over top-level
comments, `commentsProcessed` counting stored top-level comments against
`max_comments_per_post`. -/
def fetchTopLevelGo (cfg : FetchConfig) (postRedditId : String) :
    List RComment → Nat → List (String × Nat)
  | [], _ => []
  | c :: cs, commentsProcessed =>
    if cfg.maxCommentsPerPost ≤ commentsProcessed then []
    else if should_include_comment cfg c then
      if store_comment_ok cfg c postRedditId none then
        (c.id, storedDepth 0) ::
          ((if 0 < cfg.maxCommentDepth then
              fetch_comment_replies cfg postRedditId cfg.maxCommentDepth
                c.replies c.id 1
            else []) ++ fetchTopLevelGo cfg postRedditId cs (commentsProcessed + 1))
      else fetchTopLevelGo cfg postRedditId cs commentsProcessed
    else fetchTopLevelGo cfg postRedditId cs commentsProcessed

/-- Embedding of `RedditFetcher.fetch_submission_comments`, returning the
`(comment id, stored depth)` rows written for a submission's top-level
comment listing. -/
def fetch_submission_comments (cfg : FetchConfig) (postRedditId : String)
    (topComments : List RComment) : List (String × Nat) :=
  if !cfg.fetchComments then []
  else fetchTopLevelGo cfg postRedditId topComments 0

/-! ## `scripts/src/content_processor.py` -/

/-- Python values as delivered by `json.loads` for the fields this code
inspects. -/
inductive PyVal where
  | str (s : String)
  | int (n : Int)
  | list (xs : List PyVal)
  | null

/-- The slice of `ProcessingConfig` consumed by the embedded logic; the
LLM-call parameters (model name, temperature, token budget, retries,
delays, timeouts) ride on the LLM oracle and are not re-modelled. -/
structure ProcessingConfig where
  fetchUrlContent : Bool := true
  maxContentLength : Nat := 10000
deriving DecidableEq

/-- A `reddit_posts` row as the content processor reads and writes it. -/
structure PostRow where
  redditId : String
  title : String
  content : Option String
  url : Option String
  summary : Option String
  contentType : Option String
  keywords : List String
  contentProcessedAt : Option String
deriving DecidableEq

/-- The processed data produced for one post. -/
structure ProcessedData where
  summary : String
  category : String
  keywords : List String
deriving DecidableEq

/-- The closed category set of `_validate_category`. -/
def validCategories : List String :=
  ["news", "discussion", "tutorial", "question", "tool", "research", "showcase", "other"]

/-- The synonym table of `_validate_category`. -/
def categoryMapping : List (String × String) :=
  [("announcement", "news"), ("update", "news"), ("guide", "tutorial"),
   ("howto", "tutorial"), ("help", "question"), ("demo", "showcase"),
   ("project", "showcase"), ("paper", "research"), ("study", "research")]

/-- Embedding of `ContentProcessor._validate_category`: lower-case and
strip, accept a valid category, else map synonyms with fallback `other`.
A non-string value raises `AttributeError` in Python (caught by the
caller's generic handler), modelled as `none`. -/
def validate_category (v : PyVal) : Option String :=
  match v with
  | .str s =>
    let category := pyStrip (pyLower s)
    if category ∈ validCategories then some category
    else some ((categoryMapping.lookup category).getD "other")
  | _ => none

/-- Character class kept by `_process_keywords`' regex `[^\w\s-]` removal:
word characters (ASCII model of `\w`), whitespace and hyphen survive. -/
def keepKeywordChar (c : Char) : Bool :=
  isAsciiAlnum c || c = '_' || pyIsSpace c || c = '-'

/-- Cleaning of one keyword inside `_process_keywords`: non-strings are
dropped; strings are stripped, lower-cased, cleared of disallowed
characters, and kept only when longer than one character. -/
def cleanKeyword (v : PyVal) : Option String :=
  match v with
  | .str k =>
    let ck := String.mk ((pyLower (pyStrip k)).data.filter keepKeywordChar)
    if ck ≠ "" ∧ 1 < ck.length then some ck else none
  | _ => none

/-- Embedding of `ContentProcessor._process_keywords`: non-list input
yields `[]`; otherwise clean each entry and cap at 10 keywords. -/
def process_keywords (v : PyVal) : List String :=
  match v with
  | .list xs => (xs.filterMap cleanKeyword).take 10
  | _ => []

/-- Application of `sanitize_text` to a `json.loads` value, as the processor
does for the summary: `sanitize_text` returns the empty string for
non-string input. -/
def sanitizeTextVal (v : PyVal) (maxLength : Option Nat) : String :=
  match v with
  | .str s => sanitize_text s maxLength
  | _ => ""

/-- Python truthiness of `x and x.strip()` for an optional string. -/
def hasText (o : Option String) : Bool :=
  match o with
  | some s => s ≠ "" && pyStrip s ≠ ""
  | none => false

/-- The fixed instruction header of `create_processing_prompt`, up to the
title interpolation. -/
def promptHeader : String :=
  "You are an AI content analyst specializing in AI and technology content. Analyze the following Reddit post and provide:\n\n1. SUMMARY: A concise 2-3 sentence summary focusing on key insights and main points\n2. CATEGORY: Choose ONE category that best fits:\n   - news: Breaking news, announcements, industry updates\n   - discussion: Community discussions, debates, opinions\n   - tutorial: How-to guides, educational content, explanations\n   - question: Questions seeking help or information\n   - tool: Software tools, applications, libraries\n   - research: Academic papers, studies, technical research\n   - showcase: Projects, demos, personal work\n   - other: Content that doesn't fit other categories\n\n3. KEYWORDS: Extract 3-7 relevant keywords/phrases (comma-separated)\n\nPOST DATA:\nTitle: "

/-- The fixed JSON-format footer of `create_processing_prompt`. -/
def jsonFormatFooter : String :=
  "\n\nRespond in this exact JSON format:\n\x7b\n  \"summary\": \"Your summary here\",\n  \"category\": \"category_name\",\n  \"keywords\": [\"keyword1\", \"keyword2\", \"keyword3\"]\n\x7d"

/-- Embedding of `ContentProcessor.create_processing_prompt` with its
70%/30% content-budget split (Python's `int(limit * 0.7)` and
`int(limit * 0.3)` are modelled as `limit * 7 / 10` and `limit * 3 / 10`,
which agree on the configured defaults). -/
def create_processing_prompt (cfg : ProcessingConfig) (title : String)
    (content url fetchedContent : Option String) : String :=
  let base := promptHeader ++ title
  let totalContentLimit := cfg.maxContentLength
  let base :=
    if hasText fetchedContent ∧ hasText content then
      let fetchedLimit := totalContentLimit * 7 / 10
      let postLimit := totalContentLimit * 3 / 10
      base ++ "\nLinked Article Content: " ++ strTake (fetchedContent.getD "") fetchedLimit
        ++ "..." ++ "\nReddit Post Content: " ++ strTake (content.getD "") postLimit ++ "..."
    else if hasText fetchedContent then
      base ++ "\nLinked Article Content: "
        ++ strTake (fetchedContent.getD "") totalContentLimit ++ "..."
    else if hasText content then
      base ++ "\nPost Content: " ++ strTake (content.getD "") totalContentLimit ++ "..."
    else base
  let base :=
    match url with
    | some u => if u ≠ "" then base ++ "\nSource URL: " ++ u else base
    | none => base
  base ++ jsonFormatFooter

/-- The boilerplate prefixes `process_single_post` strips from a model
response. -/
def prefixesToRemove : List String :=
  ["Here is the analysis of the Reddit post:", "Here is the analysis:",
   "Analysis:", "Here's the analysis:", "The analysis is:"]

/-- Worker for the prefix-stripping loop of `process_single_post`: the
first matching prefix is removed (and the result re-stripped), then the loop
breaks. -/
def stripBoilerplateGo : List String → String → String
  | [], r => r
  | p :: ps, r =>
    if strStartsWith (pyStrip r) p then pyStrip (strDrop (pyStrip r) p.length)
    else stripBoilerplateGo ps r

/-- Response-parsing phase of `process_single_post`: strip, drop a leading
```` ```json ```` fence and a trailing ```` ``` ```` fence, strip known
boilerplate prefixes, parse as JSON (`jsonLoads` models `json.loads`,
`none` its `JSONDecodeError`), require the three keys, sanitize the summary,
normalize the category (a non-string category raises, caught by the outer
handler) and clean the keywords. The boolean records that the LLM was
invoked. -/
def parseLLMResponse (jsonLoads : String → Option (List (String × PyVal)))
    (responseText : String) : Option ProcessedData × Bool :=
  let r := pyStrip responseText
  if r = "" then (none, true)
  else
    let r := if strStartsWith r "```json" then strDrop r 7 else r
    let r := if strEndsWith r "```" then strDropRight r 3 else r
    let r := stripBoilerplateGo prefixesToRemove r
    let r := pyStrip r
    match jsonLoads r with
    | none => (none, true)
    | some obj =>
      match obj.lookup "summary", obj.lookup "category", obj.lookup "keywords" with
      | some sv, some cv, some kv =>
        match validate_category cv with
        | some cat =>
          (some { summary := sanitizeTextVal sv (some 1000), category := cat,
                  keywords := process_keywords kv }, true)
        | none => (none, true)
      | _, _, _ => (none, true)

/-- Continuation of `process_single_post` after the URL-fetch phase: build
the prompt and invoke the LLM (`llm` models the chat-completion call,
returning the first choice's message content, `none` covering both a `None`
content and a raised API error). -/
def processPostAfterFetch (llm : String → Option String)
    (jsonLoads : String → Option (List (String × PyVal)))
    (cfg : ProcessingConfig) (post : PostRow) (fetchedContent : Option String) :
    Option ProcessedData × Bool :=
  let prompt := create_processing_prompt cfg post.title post.content post.url fetchedContent
  match llm prompt with
  | none => (none, true)
  | some responseText => parseLLMResponse jsonLoads responseText

/-- Embedding of `ContentProcessor.process_single_post`. `urlFetcher` is
`self.url_fetcher` (present iff URL fetching is enabled), its function
modelling `URLFetcher.fetch_content`; when the post has a truthy URL and
the fetch yields no (truthy) content, the post fails without any LLM call.
The second component records whether the LLM was invoked. -/
def process_single_post (urlFetcher : Option (String → Option String))
    (llm : String → Option String)
    (jsonLoads : String → Option (List (String × PyVal)))
    (cfg : ProcessingConfig) (post : PostRow) : Option ProcessedData × Bool :=
  match urlFetcher, post.url with
  | some fetch, some u =>
    if u ≠ "" then
      match fetch u with
      | some c =>
        if c ≠ "" then processPostAfterFetch llm jsonLoads cfg post (some c)
        else (none, false)
      | none => (none, false)
    else processPostAfterFetch llm jsonLoads cfg post none
  | _, _ => processPostAfterFetch llm jsonLoads cfg post none

/-- Embedding of `ContentProcessor.update_post_with_processing`: write the
summary, category, keywords and `content_processed_at` onto the matching
row; an update that matches no row returns no data and is reported as a
failure. -/
def update_post_with_processing (db : List PostRow) (redditId : String)
    (pd : ProcessedData) (nowTs : String) : List PostRow × Bool :=
  if db.any (fun r => r.redditId = redditId) then
    (db.map (fun r =>
      if r.redditId = redditId then
        { r with summary := some pd.summary, contentType := some pd.category,
                 keywords := pd.keywords, contentProcessedAt := some nowTs }
      else r), true)
  else (db, false)

/-- Counters accumulated by `process_batch`. -/
structure BatchStats where
  processed : Nat
  failed : Nat
  skipped : Nat
deriving DecidableEq

/-- Worker for `process_batch`: the loop over the batch, threading the
database rows. -/
def processBatchGo (urlFetcher : Option (String → Option String))
    (llm : String → Option String)
    (jsonLoads : String → Option (List (String × PyVal)))
    (cfg : ProcessingConfig) (nowTs : String) :
    List PostRow → List PostRow → BatchStats → BatchStats × List PostRow
  | db, [], stats => (stats, db)
  | db, post :: rest, stats =>
    if pyTruthyOptStr post.contentProcessedAt then
      processBatchGo urlFetcher llm jsonLoads cfg nowTs db rest
        { stats with skipped := stats.skipped + 1 }
    else
      match (process_single_post urlFetcher llm jsonLoads cfg post).1 with
      | some pd =>
        let r := update_post_with_processing db post.redditId pd nowTs
        if r.2 then
          processBatchGo urlFetcher llm jsonLoads cfg nowTs r.1 rest
            { stats with processed := stats.processed + 1 }
        else
          processBatchGo urlFetcher llm jsonLoads cfg nowTs r.1 rest
            { stats with failed := stats.failed + 1 }
      | none =>
        processBatchGo urlFetcher llm jsonLoads cfg nowTs db rest
          { stats with failed := stats.failed + 1 }

/-- Embedding of `ContentProcessor.process_batch`, returning the final
counters and the database rows after the batch. -/
def process_batch (urlFetcher : Option (String → Option String))
    (llm : String → Option String)
    (jsonLoads : String → Option (List (String × PyVal)))
    (cfg : ProcessingConfig) (nowTs : String)
    (db : List PostRow) (posts : List PostRow) : BatchStats × List PostRow :=
  processBatchGo urlFetcher llm jsonLoads cfg nowTs db posts
    { processed := 0, failed := 0, skipped := 0 }

/-! ## `tgbot/` shared data -/

/-- A calendar date as handled by `datetime.date`. -/
structure PyDate where
  year : Nat
  month : Nat
  day : Nat
deriving DecidableEq

/-- Zero-padded two-digit rendering. -/
def pad2 (n : Nat) : String :=
  if n < 10 then "0" ++ toString n else toString n

/-- Zero-padded four-digit rendering. -/
def pad4 (n : Nat) : String :=
  if n < 10 then "000" ++ toString n
  else if n < 100 then "00" ++ toString n
  else if n < 1000 then "0" ++ toString n
  else toString n

/-- Model of `date.isoformat()`. -/
def PyDate.isoformat (d : PyDate) : String :=
  pad4 d.year ++ "-" ++ pad2 d.month ++ "-" ++ pad2 d.day

/-- English month names for `strftime('%B')`. -/
def monthName (m : Nat) : String :=
  (["January", "February", "March", "April", "May", "June", "July",
    "August", "September", "October", "November", "December"]).getD (m - 1) ""

/-- Model of `date.strftime('%B %d, %Y')`. -/
def PyDate.strftimeBdY (d : PyDate) : String :=
  monthName d.month ++ " " ++ pad2 d.day ++ ", " ++ toString d.year

/-- A `reddit_posts` row as the bot's digest queries read it
(`get_posts_for_digest` filters to processed rows with a non-null
summary, so `summary` is a plain string here). -/
structure BotPost where
  redditId : String
  title : String
  summary : String
  score : Int
  subredditName : String
  url : Option String
  permalink : String
  contentType : Option String
deriving DecidableEq

/-- A `daily_digests` row. -/
structure DigestRecord where
  id : String
  date : String
  postCount : Nat
  summary : Option String
  status : String
  telegramMessageId : Option Int
deriving DecidableEq

/-- The bot-visible database state: the `daily_digests` table and the
`digest_posts` junction table. -/
structure BotState where
  dailyDigests : List DigestRecord
  digestPosts : List (String × String)
deriving DecidableEq

/-! ## `tgbot/database.py` -/

/-- Embedding of `BotDatabase.check_digest_exists_for_date`: a row of
`daily_digests` matches the date's isoformat. -/
def check_digest_exists_for_date (st : BotState) (dateForDigest : PyDate) : Bool :=
  st.dailyDigests.any (fun r => r.date = dateForDigest.isoformat)

/-- Embedding of `BotDatabase.create_digest_record`; the external insert is
modelled as succeeding with the server-generated id `newId`, status
`pending`. -/
def create_digest_record (st : BotState) (dateForDigest : PyDate)
    (postCount : Nat) (summary : Option String) (newId : String) :
    Option String × BotState :=
  (some newId,
   { st with dailyDigests := st.dailyDigests ++
       [{ id := newId, date := dateForDigest.isoformat, postCount := postCount,
          summary := summary, status := "pending", telegramMessageId := none }] })

/-- Embedding of `BotDatabase.add_posts_to_digest`: one junction row per
included post. -/
def add_posts_to_digest (st : BotState) (digestId : String)
    (postRedditIds : List String) : BotState :=
  { st with digestPosts := st.digestPosts ++ postRedditIds.map (fun i => (digestId, i)) }

/-- Stable insertion (descending by score) underlying the per-category
`sort(key=score, reverse=True)`: a stable sort is fully determined by key
order and stability, so this models Python's sort exactly. -/
def insertByScoreDesc (x : BotPost) : List BotPost → List BotPost
  | [] => [x]
  | y :: ys => if y.score ≤ x.score then x :: y :: ys else y :: insertByScoreDesc x ys

/-- Stable sort of posts by score, descending. -/
def sortByScoreDesc (ps : List BotPost) : List BotPost :=
  ps.foldr insertByScoreDesc []

/-- One step of the grouping loop of `get_posts_by_category`: append the
post to its category's list, creating the key (in insertion order) when
absent. The grouping key is the raw `content_type` value (`.get` never
falls back to `'other'` because the selected rows always carry the key). -/
def addPostToGroups (groups : List (Option String × List BotPost)) (p : BotPost) :
    List (Option String × List BotPost) :=
  if groups.any (fun g => g.1 = p.contentType) then
    groups.map (fun g => if g.1 = p.contentType then (g.1, g.2 ++ [p]) else g)
  else groups ++ [(p.contentType, [p])]

/-- Grouping phase of `get_posts_by_category`. -/
def groupByCategory (posts : List BotPost) : List (Option String × List BotPost) :=
  posts.foldl addPostToGroups []

/-- Embedding of `BotDatabase.get_posts_by_category`: group the queried
posts by category, sort each group by score descending, then reorder the
groups by `categories_order` with the remaining groups appended. The
underlying `get_posts_for_digest` query result is the `posts` parameter. -/
def get_posts_by_category (posts : List BotPost) (categoriesOrder : List String) :
    List (Option String × List BotPost) :=
  let grouped := (groupByCategory posts).map (fun g => (g.1, sortByScoreDesc g.2))
  if categoriesOrder ≠ [] then
    let ordered := categoriesOrder.filterMap (fun c =>
      match grouped.lookup (some c) with
      | some ps => some ((some c : Option String), ps)
      | none => none)
    ordered ++ grouped.filter (fun g => !(ordered.any (fun o => o.1 = g.1)))
  else grouped

/-! ## `tgbot/digest_generator.py`

The emoji string literals below reproduce the source file's bytes exactly:
the repository file is stored mojibake-encoded (UTF-8 emoji re-decoded as
single-byte text), so each "emoji" is the corresponding short sequence of
Latin-1/Windows-1252 code points. -/

/-- Embedding of the `DigestSection` dataclass. -/
structure DigestSection where
  category : String
  title : String
  emoji : String
  posts : List BotPost
  maxPosts : Nat
deriving DecidableEq

/-- Embedding of `DigestGenerator.CATEGORY_CONFIG`. -/
def categoryConfig : List (String × DigestSection) :=
  [("news", { category := "news", title := "Breaking News & Updates", emoji := "\u011F\u0178\u201C\u00B0", posts := [], maxPosts := 4 }),
   ("tool", { category := "tool", title := "Tools & Applications", emoji := "\u011F\u0178\u203A\u00A0\u00EF\u00B8", posts := [], maxPosts := 3 }),
   ("research", { category := "research", title := "Research & Papers", emoji := "\u011F\u0178\u201D\u00AC", posts := [], maxPosts := 3 }),
   ("tutorial", { category := "tutorial", title := "Tutorials & Guides", emoji := "\u011F\u0178\u201C\u0161", posts := [], maxPosts := 3 }),
   ("discussion", { category := "discussion", title := "Community Discussions", emoji := "\u011F\u0178\u2019\u00AC", posts := [], maxPosts := 2 }),
   ("showcase", { category := "showcase", title := "Projects & Demos", emoji := "\u011F\u0178\u0161\u20AC", posts := [], maxPosts := 2 }),
   ("question", { category := "question", title := "Questions & Help", emoji := "\u00E2\u201C", posts := [], maxPosts := 2 }),
   ("other", { category := "other", title := "Other Interesting Posts", emoji := "\u011F\u0178\u2019\u00A1", posts := [], maxPosts := 2 })]

/-- The default category order installed by `DigestConfig.__post_init__`. -/
def defaultCategoriesOrder : List String :=
  ["news", "tool", "research", "tutorial", "discussion", "showcase", "question", "other"]

/-- Embedding of the bot's `DigestConfig` (from `models/config.py`). -/
structure DigestConfig where
  digestTimeUtc : String := "08:00"
  maxPostsPerDigest : Nat := 15
  categoriesOrder : List String := defaultCategoriesOrder
deriving DecidableEq

/-- The section-accumulation loop of `generate_daily_digest`: walk the
category order; for each present, non-empty category with a configuration,
take the per-category hard slice, append the whole slice, and only then
compare the running total against `max_posts_per_digest`, breaking out of
the loop once the total reaches it. Returns the sections, the final total
and the accumulated post ids. -/
def digestLoop (maxPostsPerDigest : Nat)
    (postsByCategory : List (Option String × List BotPost)) :
    List String → Nat → List DigestSection × Nat × List String
  | [], total => ([], total, [])
  | category :: rest, total =>
    match postsByCategory.lookup (some category) with
    | some catPosts =>
      if catPosts ≠ [] then
        match categoryConfig.lookup category with
        | some sectionConfig =>
          let posts := catPosts.take sectionConfig.maxPosts
          if posts ≠ [] then
            let sectionOut : DigestSection :=
              { category := category, title := sectionConfig.title,
                emoji := sectionConfig.emoji, posts := posts,
                maxPosts := sectionConfig.maxPosts }
            let total' := total + posts.length
            let ids := posts.map (fun p => p.redditId)
            if maxPostsPerDigest ≤ total' then ([sectionOut], total', ids)
            else
              let r := digestLoop maxPostsPerDigest postsByCategory rest total'
              (sectionOut :: r.1, r.2.1, ids ++ r.2.2)
          else digestLoop maxPostsPerDigest postsByCategory rest total
        | none => digestLoop maxPostsPerDigest postsByCategory rest total
      else digestLoop maxPostsPerDigest postsByCategory rest total
    | none => digestLoop maxPostsPerDigest postsByCategory rest total

/-- Embedding of `DigestGenerator._format_post_entry`. -/
def format_post_entry (post : BotPost) (index : Nat) : String :=
  let title := if 100 < post.title.length then strTake post.title 97 ++ "..." else post.title
  let summary :=
    if 200 < post.summary.length then strTake post.summary 197 ++ "..." else post.summary
  let postLines :=
    ["**" ++ toString index ++ ". " ++ title ++ "**",
     "\u011F\u0178\u201C\u02C6 " ++ toString post.score ++ " upvotes \u00E2\u20AC\u00A2 r/"
       ++ post.subredditName,
     "\u011F\u0178\u2019\u00AC " ++ summary]
  let postLines := postLines ++
    (if pyTruthyOptStr post.url ∧ post.url.getD "" ≠ post.permalink then
      ["\u011F\u0178\u201D\u2014 [Read more](" ++ post.url.getD "" ++ ")"]
    else if post.permalink ≠ "" then
      ["\u011F\u0178\u201D\u2014 [Discussion](" ++ post.permalink ++ ")"]
    else [])
  String.intercalate "\n" postLines

/-- Per-section post lines (each post entry followed by a blank line),
with 1-based enumeration. -/
def sectionPostLines : List BotPost → Nat → List String
  | [], _ => []
  | p :: ps, i => [format_post_entry p i, ""] ++ sectionPostLines ps (i + 1)

/-- Lines contributed by one digest section. -/
def sectionLines (s : DigestSection) : List String :=
  [s.emoji ++ " **" ++ s.title ++ "**", ""] ++ sectionPostLines s.posts 1 ++ ["---", ""]

/-- Embedding of `DigestGenerator._format_digest_message`; `nowClock` is the
rendered `strftime('%H:%M UTC')` value. -/
def format_digest_message (sections : List DigestSection) (targetDate : PyDate)
    (totalPosts : Nat) (nowClock : String) : String :=
  let messageLines :=
    ["\u011F\u0178\u00A4\u2013 **AI Daily Digest**",
     "\u011F\u0178\u201C\u2026 " ++ targetDate.strftimeBdY,
     "\u011F\u0178\u201C\u0160 " ++ toString totalPosts ++ " curated posts from AI communities",
     "",
     "\u011F\u0178\u201D\u00A5 **Top Stories from Reddit's AI Communities**",
     ""]
  let messageLines := messageLines ++ (sections.map sectionLines).flatten
  let messageLines := messageLines ++
    ["\u011F\u0178\u2019\u00A1 **Want to chat about AI?**",
     "Just send me a message - I'm powered by the same AI that creates these summaries!",
     "",
     "\u011F\u0178\u201D\u2014 **Sources:** r/artificial, r/OpenAI, r/ClaudeAI, r/LocalLLaMA, r/LangChain, r/AI_Agents, r/PromptEngineering, r/singularity",
     "",
     "\u00E2\u00B1\u00EF\u00B8 Generated at " ++ nowClock]
  String.intercalate "\n" messageLines

/-- Embedding of `DigestGenerator.generate_daily_digest`. `queriedPosts`
is the result of the underlying `get_posts_for_digest` database query for
the trailing one-day window; `newId` the server id a successful insert
returns; `nowClock` the rendered generation time. Returns the
`(message, digest id, post ids)` triple and the database state after the
call. -/
def generate_daily_digest (st : BotState) (queriedPosts : List BotPost)
    (cfg : DigestConfig) (targetDate : PyDate) (newId : String) (nowClock : String) :
    (Option String × Option String × List String) × BotState :=
  if check_digest_exists_for_date st targetDate then ((none, none, []), st)
  else
    let postsByCategory := get_posts_by_category queriedPosts cfg.categoriesOrder
    if postsByCategory = [] then ((none, none, []), st)
    else
      let r := digestLoop cfg.maxPostsPerDigest postsByCategory cfg.categoriesOrder 0
      if r.1 = [] then ((none, none, []), st)
      else
        let message := format_digest_message r.1 targetDate r.2.1 nowClock
        let c := create_digest_record st targetDate r.2.1
          (some ("Daily digest with " ++ toString r.2.1 ++ " posts across "
            ++ toString r.1.length ++ " categories")) newId
        match c.1 with
        | some digestId =>
          ((some message, some digestId, r.2.2), add_posts_to_digest c.2 digestId r.2.2)
        | none => ((some message, none, r.2.2), c.2)

/-- The processing-statistics record read by `generate_stats_message`
(`processing_rate` is a Python float; its rendered `str()` form is carried
as a string). -/
structure ProcessingStats where
  totalPosts : Nat
  processedPosts : Nat
  processingRate : String
  categoryBreakdown : List (String × Nat)
deriving DecidableEq

/-- The fields of a recent-digest row that `generate_stats_message`
reads. -/
structure DigestMeta where
  date : String
  postCount : Nat
  status : String
deriving DecidableEq

/-- Model of the expression `CATEGORY_CONFIG.get(category, {}).get(attr,
default)` in `generate_stats_message`: for a configured category the outer
`get` yields a `DigestSection` dataclass, which has no `get` method, so the
inner call raises `AttributeError` (the error value); only for an
unconfigured category does the `{}` default make the inner `get` return
`default`. -/
def digestSectionAttrGet (category defaultVal : String) : Except Unit String :=
  match categoryConfig.lookup category with
  | some _ => Except.error ()
  | none => Except.ok defaultVal

/-- Stable insertion (descending by count) for the breakdown sort
`sorted(items, key=count, reverse=True)`. -/
def insertByCountDesc (x : String × Nat) : List (String × Nat) → List (String × Nat)
  | [] => [x]
  | y :: ys => if y.2 ≤ x.2 then x :: y :: ys else y :: insertByCountDesc x ys

/-- Stable sort of the category breakdown by count, descending. -/
def sortBreakdownDesc (ps : List (String × Nat)) : List (String × Nat) :=
  ps.foldr insertByCountDesc []

/-- The `try` body of `generate_stats_message`; an `AttributeError` from the
category-lookup slip surfaces as the error case. -/
def statsBody (stats : ProcessingStats) (recentDigests : List DigestMeta)
    (nowClock : String) : Except Unit String := do
  let messageLines :=
    ["\u011F\u0178\u201C\u0160 **AI Daily Digest Statistics**",
     "",
     "\u011F\u0178\u201C **Content Processing:**",
     "\u00E2\u20AC\u00A2 Total posts: " ++ pyFormatComma stats.totalPosts,
     "\u00E2\u20AC\u00A2 Processed posts: " ++ pyFormatComma stats.processedPosts,
     "\u00E2\u20AC\u00A2 Processing rate: " ++ stats.processingRate ++ "%",
     "",
     "\u011F\u0178\u201C\u201A **Posts by Category:**"]
  let catLines ← (sortBreakdownDesc stats.categoryBreakdown).mapM (fun p => do
    let emoji ← digestSectionAttrGet p.1 "\u011F\u0178\u201C\u201E"
    let title ← digestSectionAttrGet p.1 (pyTitle p.1)
    Except.ok ("\u00E2\u20AC\u00A2 " ++ emoji ++ " " ++ title ++ ": " ++ pyFormatComma p.2))
  let messageLines := messageLines ++ catLines
  let messageLines := messageLines ++
    ["", "\u011F\u0178\u201C\u2026 **Recent Digests:** " ++ toString recentDigests.length
      ++ " in last 7 days"]
  let digestLines := (recentDigests.take 3).map (fun d =>
    let statusEmoji :=
      if d.status = "completed" then "\u00E2\u0153\u2026"
      else if d.status = "pending" then "\u00E2\u00B3"
      else "\u00E2\u0152"
    "\u00E2\u20AC\u00A2 " ++ statusEmoji ++ " " ++ d.date ++ ": "
      ++ toString d.postCount ++ " posts")
  let messageLines := messageLines ++ digestLines ++
    ["", "\u00E2\u00B1\u00EF\u00B8 Updated at " ++ nowClock]
  Except.ok (String.intercalate "\n" messageLines)

/-- Embedding of `DigestGenerator.generate_stats_message`: render the
statistics, falling back to the fixed apology line when the body raises. -/
def generate_stats_message (stats : ProcessingStats)
    (recentDigests : List DigestMeta) (nowClock : String) : String :=
  match statsBody stats recentDigests nowClock with
  | Except.ok m => m
  | Except.error _ => "\u00E2\u0152 Unable to generate statistics at this time."

/-! ## `tgbot/chat_handler.py` and `tgbot/main.py` -/

/-- A chat-completion message. -/
structure ChatMsg where
  role : String
  content : String
deriving DecidableEq

/-- The fixed system prompt of `ChatHandler`. -/
def chatSystemPrompt : String :=
  "You are an AI assistant that helps people stay informed about artificial intelligence developments. You have access to curated daily content from AI communities on Reddit including:\n\n- r/artificial - General AI discussions and news\n- r/OpenAI - OpenAI-specific content and developments  \n- r/ClaudeAI - Anthropic's Claude AI discussions\n- r/LocalLLaMA - Local language model developments\n- r/LangChain - LangChain framework discussions\n- r/AI_Agents - AI agent development and applications\n- r/PromptEngineering - Prompt engineering techniques\n- r/singularity - AI singularity and futurism discussions\n\nYour role is to:\n1. Answer questions about AI developments, trends, and technologies\n2. Provide insights about the AI community and discussions\n3. Help users understand complex AI concepts\n4. Share interesting developments from the AI space\n5. Engage in thoughtful conversations about AI's impact and future\n\nBe helpful, knowledgeable, and conversational. Keep responses concise but informative. If you don't know something specific, acknowledge it honestly. Focus on being genuinely helpful rather than just impressive.\n\nYou're part of an AI Daily Digest system that curates and summarizes the best AI content from Reddit communities."

/-- Python slice `l[-n:]`: the last `n` entries (all of them when shorter). -/
def pyLastN {α : Type} (n : Nat) (l : List α) : List α :=
  l.drop (l.length - n)

/-- Message-list assembly of `ChatHandler.handle_message`: the system
prompt, then (when the passed context is truthy) its last 10 entries, then
the current user message. This is the `messages` value handed to the
chat-completion call. -/
def build_chat_messages (chatContext : Option (List ChatMsg)) (userMessage : String) :
    List ChatMsg :=
  let messages := [({ role := "system", content := chatSystemPrompt } : ChatMsg)]
  let messages := messages ++
    (match chatContext with
     | some ctx => if ctx ≠ [] then pyLastN 10 ctx else []
     | none => [])
  messages ++ [{ role := "user", content := userMessage }]

/-- Update of the in-memory `user_contexts` map. -/
def updateUserContext (contexts : List (Nat × List ChatMsg)) (userId : Nat)
    (ctx : List ChatMsg) : List (Nat × List ChatMsg) :=
  if contexts.any (fun p => p.1 = userId) then
    contexts.map (fun p => if p.1 = userId then (userId, ctx) else p)
  else contexts ++ [(userId, ctx)]

/-- Embedding of `AIDigestBot.handle_message` for a free-text message:
append the user turn to the stored per-user context, hand that context and
the user message to `ChatHandler.handle_message` (whose chat-completion
call is the oracle `llm`, its canned error replies included in the oracle's
value), append the assistant turn, and truncate the context to the last 20
entries. Returns the message list that was passed to the LLM together with
the updated context map; an empty message is ignored, as in the source's
truthiness guard. -/
def bot_handle_message (contexts : List (Nat × List ChatMsg)) (userId : Nat)
    (userMessage : String) (llm : List ChatMsg → String) :
    List ChatMsg × List (Nat × List ChatMsg) :=
  if userMessage = "" then ([], contexts)
  else
    let ctx := ((contexts.lookup userId).getD []) ++
      [({ role := "user", content := userMessage } : ChatMsg)]
    let llmMessages := build_chat_messages (some ctx) userMessage
    let response := llm llmMessages
    let ctx := ctx ++ [({ role := "assistant", content := response } : ChatMsg)]
    let ctx := if 20 < ctx.length then pyLastN 20 ctx else ctx
    (llmMessages, updateUserContext contexts userId ctx)

/-! ## Concrete example inputs used by witnesses and counterexamples -/

/-- A Twitter API oracle that succeeds on the first tweet of
`exampleThread` and fails on every other tweet. -/
def exampleTweetApi : String → Option String → Option String :=
  fun t _ => if t = "one" then some "1001" else none

/-- A three-tweet thread. -/
def exampleThread : TweetThread :=
  { tweets := ["one", "two", "three"] }

/-- A not-yet-tweeted `reddit_posts` row as the Twitter poster selects it. -/
def exampleTweetRow : TweetPostRow :=
  { redditId := "abc123", title := "A big model release", summary := "It is big.",
    url := "https://example.com/a", permalink := "https://reddit.com/r/artificial/abc123",
    score := 300, twitterSent := false, twitterSentAt := none }

/-- An environment with every required credential set and
`TARGET_SUBREDDITS` unset. -/
def exampleEnv : String → Option String := fun name =>
  if name = "REDDIT_CLIENT_ID" then some "id"
  else if name = "REDDIT_CLIENT_SECRET" then some "secret"
  else if name = "REDDIT_USERNAME" then some "user"
  else if name = "REDDIT_PASSWORD" then some "pass"
  else if name = "SUPABASE_URL" then some "http://db"
  else if name = "SUPABASE_ANON_KEY" then some "key"
  else none

/-- The target-subreddit list produced by a successful
`load_config_from_env` run, `none` when loading fails. -/
def targetsOfLoad (env : String → Option String) : Option (List String) :=
  match load_config_from_env env true with
  | Except.ok c => some c.2.2.targetSubreddits
  | Except.error _ => none

/-- The configuration triple `load_config_from_env exampleEnv true`
evaluates to. -/
def exampleLoadedConfig : RedditConfig × SupabaseConfig × FetchConfig :=
  ({ clientId := "id", clientSecret := "secret", username := "user",
     password := "pass", userAgent := "AI Daily Digest Fetcher 1.0" },
   { url := "http://db", key := "key" },
   { fetchComments := true, maxCommentsPerPost := 10, maxCommentDepth := 2,
     minCommentScore := 2,
     targetSubreddits := ["AI_Agents", "artificial", "ClaudeAI", "LangChain",
       "LocalLLaMA", "OpenAI", "PromptEngineering", "singularity"],
     minSubmissionScore := 5, maxTitleLength := 300, maxContentLength := 40000,
     maxCommentLength := 10000 })

/-- A URL fetch oracle that never yields content. -/
def exampleFetchFail : String → Option String := fun _ => none

/-- An LLM oracle with a fixed response. -/
def exampleLLM : String → Option String := fun _ => some "irrelevant"

/-- A JSON-parse oracle that always fails. -/
def exampleJsonLoads : String → Option (List (String × PyVal)) := fun _ => none

/-- An unprocessed post that has both non-empty self-text and a URL. -/
def exampleUnprocessedPost : PostRow :=
  { redditId := "abc123", title := "A post", content := some "some self text",
    url := some "https://example.com/a", summary := none, contentType := none,
    keywords := [], contentProcessedAt := none }

/-- A comment body passing every comment filter. -/
def exampleCommentBody : String :=
  "This model analysis is detailed and helpful."

/-- A comment chain four levels deep, every level passing the filters:
`c0c0c0` at the top, `c1c1c1` below it, then `c2c2c2`, then `c3c3c3`. -/
def exampleCommentChain : RComment :=
  RComment.mk "c0c0c0" exampleCommentBody 5 none false
    [RComment.mk "c1c1c1" exampleCommentBody 5 none false
      [RComment.mk "c2c2c2" exampleCommentBody 5 none false
        [RComment.mk "c3c3c3" exampleCommentBody 5 none false []]]]

/-- The depth-2 comment of the chain. -/
def exampleDepth2Comment : RComment :=
  RComment.mk "c2c2c2" exampleCommentBody 5 none false
    [RComment.mk "c3c3c3" exampleCommentBody 5 none false []]

/-- The depth-3 comment of the chain. -/
def exampleDepth3Comment : RComment :=
  RComment.mk "c3c3c3" exampleCommentBody 5 none false []

/-- Fetch configuration with `max_comment_depth = 2` (the default). -/
def exampleFetchCfg2 : FetchConfig :=
  { maxCommentDepth := 2 }

/-- Fetch configuration with `max_comment_depth = 3`. -/
def exampleFetchCfg3 : FetchConfig :=
  { maxCommentDepth := 3 }

/-- A bot database state already holding a digest for 2026-10-11. -/
def exampleBotState : BotState :=
  { dailyDigests := [{ id := "d1", date := "2026-10-11", postCount := 3, summary := none, status := "completed", telegramMessageId := none }],
    digestPosts := [] }

/-- A bot database state with no digests. -/
def emptyBotState : BotState :=
  { dailyDigests := [], digestPosts := [] }

/-- The target date used in the digest examples. -/
def exampleDate : PyDate :=
  { year := 2026, month := 10, day := 11 }

/-- Shortcut for building digest-query rows. -/
def botPost (id : String) (cat : String) (sc : Int) : BotPost :=
  { redditId := id, title := "A title long enough", summary := "A summary.",
    score := sc, subredditName := "artificial", url := none,
    permalink := "https://reddit.com/x", contentType := some cat }

/-- Digest-query result with 5 news posts, 1 tool post and 2 research
posts, scores already descending within each category. -/
def exampleDigestPosts : List BotPost :=
  [botPost "news01" "news" 50, botPost "news02" "news" 45,
   botPost "news03" "news" 40, botPost "news04" "news" 35,
   botPost "news05" "news" 30, botPost "tool01" "tool" 25,
   botPost "res01" "research" 20, botPost "res02" "research" 15]

/-- Digest configuration with an overall cap of 5 posts. -/
def digestCfg5 : DigestConfig :=
  { maxPostsPerDigest := 5 }

/-- Digest configuration with an overall cap of 3 posts. -/
def digestCfg3 : DigestConfig :=
  { maxPostsPerDigest := 3 }

/-- A grouped posts-by-category map with a single `news` group. -/
def exampleByCat : List (Option String × List BotPost) :=
  [(some "news", [botPost "n1" "news" 9, botPost "n2" "news" 8])]

/-- The digest section `digestLoop` produces from `exampleByCat`. -/
def exampleSection : DigestSection :=
  { category := "news", title := "Breaking News & Updates",
    emoji := "\u011F\u0178\u201C\u00B0",
    posts := [botPost "n1" "news" 9, botPost "n2" "news" 8], maxPosts := 4 }

/-- Statistics with a non-empty category breakdown naming a configured
category. -/
def exampleStats : ProcessingStats :=
  { totalPosts := 10, processedPosts := 5, processingRate := "50.0",
    categoryBreakdown := [("news", 5)] }

/-! ## Theorems -/

/-- Helper for C3: the validation loop succeeds exactly when every tweet
fits in 280 characters, at any starting index. -/
theorem tweetThreadCheck_ok_iff (ts : List String) (i : Nat) :
    tweetThreadCheck ts i = Except.ok () ↔ ∀ t ∈ ts, t.length ≤ 280 := by
  induction ts generalizing i with
  | nil => simp [tweetThreadCheck]
  | cons t ts ih =>
    simp only [tweetThreadCheck]
    by_cases h : 280 < t.length
    · rw [if_pos h]
      constructor
      · intro hc; exact absurd hc (by simp)
      · intro hall; exact absurd (hall t (List.mem_cons_self t ts)) (by omega)
    · rw [if_neg h]
      rw [ih]
      constructor
      · intro hall u hu
        rcases List.mem_cons.mp hu with rfl | hu
        · omega
        · exact hall u hu
      · intro hall u hu; exact hall u (List.mem_cons_of_mem _ hu)

/-- C3: constructing a `TweetThread` raises if and only if some supplied
tweet is strictly longer than 280 characters; equivalently, construction
succeeds exactly when every tweet has length at most 280 (length exactly
280 included). -/
theorem tweetThread_construction_raises_iff (tweets : List String) :
    (((mkTweetThread tweets).isOk = true) ↔ ∀ t ∈ tweets, t.length ≤ 280) ∧
    (((mkTweetThread tweets).isOk = false) ↔ ∃ t ∈ tweets, 280 < t.length) := by
  have hcheck := tweetThreadCheck_ok_iff tweets 0
  constructor
  · constructor
    · intro hok
      rcases h : tweetThreadCheck tweets 0 with e | u
      · simp only [mkTweetThread, h, Except.isOk, Except.toBool] at hok
        exact absurd hok (by decide)
      · exact hcheck.mp (by rw [h])
    · intro hall
      have := hcheck.mpr hall
      simp only [mkTweetThread, this, Except.isOk, Except.toBool]
  · constructor
    · intro hbad
      by_contra hni
      push_neg at hni
      have hall : ∀ t ∈ tweets, t.length ≤ 280 := fun t ht => by
        have := hni t ht; omega
      have := hcheck.mpr hall
      simp only [mkTweetThread, this, Except.isOk, Except.toBool] at hbad
      exact absurd hbad (by decide)
    · intro hex
      obtain ⟨t, ht, hlen⟩ := hex
      rcases h : tweetThreadCheck tweets 0 with e | u
      · simp only [mkTweetThread, h, Except.isOk, Except.toBool]
      · exact absurd (hcheck.mp (by rw [h]) t ht) (by omega)

/-- C1: the Twitter poster marks a post as tweeted only when every tweet of
the posted thread obtained an id, and whenever some tweet of the thread
failed to obtain an id the call reports failure and leaves the row (and so
`twitter_sent = false`) untouched. -/
theorem post_tweet_marks_only_on_full_thread
    (api : String → Option String → Option String) (dbOk : Bool) (nowTs : String)
    (row : TweetPostRow) (thread : TweetThread)
    (hrow : row.twitterSent = false) :
    ((post_tweet_for_reddit_post (Except.ok thread) api dbOk nowTs row).2.twitterSent = true →
      ∀ tid ∈ post_thread api thread, tid ≠ none) ∧
    (none ∈ post_thread api thread →
      post_tweet_for_reddit_post (Except.ok thread) api dbOk nowTs row = (false, row)) := by
  have hallFalse : ∀ (l : List (Option String)), none ∈ l →
      l.all (fun t => t.isSome) = false := by
    intro l hmem
    rcases ha : l.all (fun t => t.isSome) with _ | _
    · rfl
    · have := List.all_eq_true.mp ha none hmem
      simp at this
  constructor
  · intro hsent tid htid hnone
    subst hnone
    have h := hallFalse _ htid
    simp [post_tweet_for_reddit_post, h, hrow] at hsent
  · intro hmem
    have h := hallFalse _ hmem
    simp [post_tweet_for_reddit_post, h]

/-- Witness for C1 at a concrete thread whose second tweet fails: the call
reports failure and the row keeps `twitter_sent = false`. -/
theorem post_tweet_marks_only_on_full_thread_witness :
    exampleTweetRow.twitterSent = false ∧
    post_tweet_for_reddit_post (Except.ok exampleThread) exampleTweetApi true
      "2026-01-01T00:00:00+00:00" exampleTweetRow = (false, exampleTweetRow) :=
  ⟨rfl,
   (post_tweet_marks_only_on_full_thread exampleTweetApi true
      "2026-01-01T00:00:00+00:00" exampleTweetRow exampleThread rfl).2 (by decide)⟩

/-- Helper for C4: characters of `removeCtrl`'s output are never in the
stripped control ranges. -/
theorem mem_removeCtrl {c : Char} {s : String} (h : c ∈ (removeCtrl s).data) :
    isStrippedCtrl c = false := by
  simp only [removeCtrl] at h
  have := List.of_mem_filter h
  simpa using this

/-- Helper for C4: `pyRstrip` only keeps characters of its input. -/
theorem mem_pyRstrip {c : Char} {s : String} (h : c ∈ (pyRstrip s).data) :
    c ∈ s.data := by
  simp only [pyRstrip] at h
  rw [List.mem_reverse] at h
  have hs := List.dropWhile_sublist (l := s.data.reverse) (p := pyIsSpace)
  have := hs.mem h
  rwa [List.mem_reverse] at this

/-- Helper for C4: `strTake` only keeps characters of its input. -/
theorem mem_strTake {c : Char} {s : String} {n : Nat} (h : c ∈ (strTake s n).data) :
    c ∈ s.data := by
  simp only [strTake] at h
  exact (List.take_sublist n s.data).mem h

/-- Helper for C4: `pyRstrip` never lengthens a string. -/
theorem pyRstrip_length_le (s : String) : (pyRstrip s).length ≤ s.length := by
  simp only [pyRstrip, String.length]
  calc ((s.data.reverse.dropWhile pyIsSpace).reverse).length
      = (s.data.reverse.dropWhile pyIsSpace).length := List.length_reverse _
    _ ≤ s.data.reverse.length := (List.dropWhile_sublist _).length_le
    _ = s.data.length := List.length_reverse _

/-- C4 counterexample: the claim's composition order (unescape before
strip) disagrees with the code on `"&#32;"`, and with `max_length = 0`
given, the output exceeds the limit because Python's truthiness check
skips truncation for 0. -/
theorem sanitize_text_claim_counterexample :
    sanitize_text "&#32;" none ≠ sanitizeTextClaimSpec "&#32;" none ∧
    ¬ (sanitize_text "ab" (some 0)).length ≤ 0 := by
  constructor
  · decide
  · decide

/-- C4 (amended): `sanitize_text` returns the empty string on empty input
and otherwise strips, HTML-unescapes, removes the control ranges and, for a
non-zero limit, truncates with trailing whitespace trimmed; its output
never contains a stripped control character and never exceeds a non-zero
limit. -/
theorem sanitize_text_amended :
    (∀ m, sanitize_text "" m = "") ∧
    (∀ text m, sanitize_text text m = sanitizeTextSpecAmended text m) ∧
    (∀ text m c, c ∈ (sanitize_text text m).data → isStrippedCtrl c = false) ∧
    (∀ text n, n ≠ 0 → (sanitize_text text (some n)).length ≤ n) := by
  refine ⟨?_, ?_, ?_, ?_⟩
  · intro m; simp [sanitize_text]
  · intro text m; rfl
  · intro text m c hc
    by_cases ht : text = ""
    · rw [ht] at hc; simp [sanitize_text] at hc
    · simp only [sanitize_text, if_neg ht] at hc
      rcases m with _ | m
      · exact mem_removeCtrl hc
      · simp only at hc
        by_cases hcond : m ≠ 0 ∧ m < (removeCtrl (htmlUnescape (pyStrip text))).length
        · rw [if_pos hcond] at hc
          exact mem_removeCtrl (mem_strTake (mem_pyRstrip hc))
        · rw [if_neg hcond] at hc
          exact mem_removeCtrl hc
  · intro text n hn
    by_cases ht : text = ""
    · simp [sanitize_text, ht]
    · simp only [sanitize_text, if_neg ht]
      by_cases hcond : n ≠ 0 ∧ n < (removeCtrl (htmlUnescape (pyStrip text))).length
      · rw [if_pos hcond]
        calc (pyRstrip (strTake (removeCtrl (htmlUnescape (pyStrip text))) n)).length
            ≤ (strTake (removeCtrl (htmlUnescape (pyStrip text))) n).length :=
              pyRstrip_length_le _
          _ ≤ n := by
              simp only [strTake, String.length]
              exact List.length_take_le n _
      · rw [if_neg hcond]
        rcases not_and_or.mp hcond with h0 | hlen
        · exact absurd hn (by simpa using h0)
        · omega

/-- Witness for C4 (amended) at a concrete non-zero limit. -/
theorem sanitize_text_amended_witness :
    (2 ≠ 0) ∧ (sanitize_text "a b " (some 2)).length ≤ 2 :=
  ⟨by decide, sanitize_text_amended.2.2.2 "a b " 2 (by decide)⟩

/-- C8 counterexample: with every credential present and
`TARGET_SUBREDDITS` unset, the loaded target-subreddit list is the
eight-name default — `huggingface` is not in it, so the claimed nine-name
list is wrong. -/
theorem load_config_subreddits_counterexample :
    exampleEnv "TARGET_SUBREDDITS" = none ∧
    targetsOfLoad exampleEnv = some ["AI_Agents", "artificial", "ClaudeAI",
      "LangChain", "LocalLLaMA", "OpenAI", "PromptEngineering", "singularity"] ∧
    targetsOfLoad exampleEnv ≠ some ["AI_Agents", "artificial", "ClaudeAI",
      "huggingface", "LangChain", "LocalLLaMA", "OpenAI", "PromptEngineering",
      "singularity"] := by
  refine ⟨rfl, by decide, by decide⟩

/-- C8 (amended): whenever `TARGET_SUBREDDITS` is unset and
`load_config_from_env` succeeds, the returned fetch configuration's
target-subreddit list is exactly the eight names `AI_Agents, artificial,
ClaudeAI, LangChain, LocalLLaMA, OpenAI, PromptEngineering, singularity`,
in that order. -/
theorem load_config_default_subreddits
    (env : String → Option String) (dbOk : Bool)
    (c : RedditConfig × SupabaseConfig × FetchConfig)
    (henv : env "TARGET_SUBREDDITS" = none)
    (hok : load_config_from_env env dbOk = Except.ok c) :
    c.2.2.targetSubreddits = ["AI_Agents", "artificial", "ClaudeAI", "LangChain",
      "LocalLLaMA", "OpenAI", "PromptEngineering", "singularity"] := by
  simp only [load_config_from_env, envOrDefault, henv] at hok
  split at hok
  · cases hok
  · split at hok
    · cases hok
    · split at hok
      · cases hok
      · rename_i ints heq
        cases hok
        have hsplit : ((pySplitComma
            "AI_Agents,artificial,ClaudeAI,LangChain,LocalLLaMA,OpenAI,PromptEngineering,singularity").map
              pyStrip).filter (fun s => s ≠ "") =
            ["AI_Agents", "artificial", "ClaudeAI", "LangChain", "LocalLLaMA",
             "OpenAI", "PromptEngineering", "singularity"] := by decide
        simpa using hsplit

/-- Witness for C8 (amended) at the concrete example environment. -/
theorem load_config_default_subreddits_witness :
    exampleEnv "TARGET_SUBREDDITS" = none ∧
    load_config_from_env exampleEnv true = Except.ok exampleLoadedConfig ∧
    exampleLoadedConfig.2.2.targetSubreddits = ["AI_Agents", "artificial",
      "ClaudeAI", "LangChain", "LocalLLaMA", "OpenAI", "PromptEngineering",
      "singularity"] :=
  ⟨rfl, rfl,
   load_config_default_subreddits exampleEnv true exampleLoadedConfig rfl rfl⟩

/-- C5: with URL fetching enabled and a post carrying a non-empty URL whose
fetch yields no (truthy) content, `process_single_post` returns no result
without invoking the LLM — regardless of the post's own self-text — and a
batch over that post reports one failure and leaves every database row
(its `content_processed_at` included) unchanged. -/
theorem process_single_post_failed_fetch
    (fetch : String → Option String) (llm : String → Option String)
    (jsonLoads : String → Option (List (String × PyVal)))
    (cfg : ProcessingConfig) (nowTs : String) (db : List PostRow)
    (post : PostRow) (u : String)
    (hurl : post.url = some u) (hu : u ≠ "")
    (hfetch : pyTruthyOptStr (fetch u) = false)
    (hunproc : post.contentProcessedAt = none) :
    process_single_post (some fetch) llm jsonLoads cfg post = (none, false) ∧
    process_batch (some fetch) llm jsonLoads cfg nowTs db [post] =
      ({ processed := 0, failed := 1, skipped := 0 }, db) := by
  have hsingle : process_single_post (some fetch) llm jsonLoads cfg post = (none, false) := by
    simp only [process_single_post, hurl]
    rw [if_pos hu]
    rcases hf : fetch u with _ | content
    · rfl
    · rw [hf] at hfetch
      simp only [pyTruthyOptStr] at hfetch
      simp only [hfetch]
      rw [if_neg (by simpa using hfetch)]
  refine ⟨hsingle, ?_⟩
  simp only [process_batch, processBatchGo, hunproc, pyTruthyOptStr, hsingle]
  simp

/-- Witness for C5 at a concrete post with non-empty self-text and a URL
whose fetch fails. -/
theorem process_single_post_failed_fetch_witness :
    exampleUnprocessedPost.url = some "https://example.com/a" ∧
    pyTruthyOptStr (exampleFetchFail "https://example.com/a") = false ∧
    exampleUnprocessedPost.content = some "some self text" ∧
    process_single_post (some exampleFetchFail) exampleLLM exampleJsonLoads
      { fetchUrlContent := true, maxContentLength := 10000 } exampleUnprocessedPost = (none, false) ∧
    process_batch (some exampleFetchFail) exampleLLM exampleJsonLoads
      { fetchUrlContent := true, maxContentLength := 10000 } "2026-01-01"
      [exampleUnprocessedPost] [exampleUnprocessedPost] =
      ({ processed := 0, failed := 1, skipped := 0 }, [exampleUnprocessedPost]) := by
  refine ⟨rfl, rfl, rfl, ?_, ?_⟩
  · exact (process_single_post_failed_fetch exampleFetchFail exampleLLM exampleJsonLoads
      { fetchUrlContent := true, maxContentLength := 10000 } "2026-01-01"
      [exampleUnprocessedPost] exampleUnprocessedPost "https://example.com/a"
      rfl (by decide) rfl rfl).1
  · exact (process_single_post_failed_fetch exampleFetchFail exampleLLM exampleJsonLoads
      { fetchUrlContent := true, maxContentLength := 10000 } "2026-01-01"
      [exampleUnprocessedPost] exampleUnprocessedPost "https://example.com/a"
      rfl (by decide) rfl rfl).2

/-- C10: for a non-empty inbound message, the message list the bot hands to
the chat-completion call ends with two copies of the user turn — one from
the tail of the per-user context (the bot appends the turn before calling
the handler, and the handler includes the context's last 10 entries) and
one appended again by the handler. -/
theorem bot_message_list_contains_user_twice
    (contexts : List (Nat × List ChatMsg)) (userId : Nat) (userMessage : String)
    (llm : List ChatMsg → String) (h : userMessage ≠ "") :
    ∃ pre, (bot_handle_message contexts userId userMessage llm).1 =
      pre ++ [{ role := "user", content := userMessage },
              { role := "user", content := userMessage }] := by
  unfold bot_handle_message
  rw [if_neg h]
  simp only [build_chat_messages]
  generalize (contexts.lookup userId).getD [] = l
  set u : ChatMsg := { role := "user", content := userMessage } with hu
  have hne : l ++ [u] ≠ [] := by simp
  rw [if_pos hne]
  refine ⟨[({ role := "system", content := chatSystemPrompt } : ChatMsg)] ++
    l.drop ((l ++ [u]).length - 10), ?_⟩
  simp only [pyLastN]
  rw [List.drop_append_eq_append_drop]
  have h0 : (l ++ [u]).length - 10 - l.length = 0 := by
    simp only [List.length_append, List.length_singleton]
    omega
  rw [h0]
  simp [List.append_assoc]

/-- Witness for C10 at a concrete message. -/
theorem bot_message_list_contains_user_twice_witness :
    ("hi" ≠ "") ∧
    ∃ pre, (bot_handle_message [] 1 "hi" (fun _ => "resp")).1 =
      pre ++ [{ role := "user", content := "hi" }, { role := "user", content := "hi" }] :=
  ⟨by decide, bot_message_list_contains_user_twice [] 1 "hi" (fun _ => "resp") (by decide)⟩

/-- C2: when a digest record already exists for the target date,
`generate_daily_digest` returns the empty result (no message, no id, no
post ids) and the database state — the `daily_digests` and `digest_posts`
tables — is returned unchanged. -/
theorem generate_daily_digest_refuses_existing_date
    (st : BotState) (queriedPosts : List BotPost) (cfg : DigestConfig)
    (targetDate : PyDate) (newId nowClock : String)
    (h : check_digest_exists_for_date st targetDate = true) :
    generate_daily_digest st queriedPosts cfg targetDate newId nowClock =
      ((none, none, []), st) := by
  unfold generate_daily_digest
  rw [h]
  rfl

/-- Witness for C2 at a state already holding a digest dated 2026-10-11. -/
theorem generate_daily_digest_refuses_existing_date_witness :
    check_digest_exists_for_date exampleBotState exampleDate = true ∧
    generate_daily_digest exampleBotState exampleDigestPosts digestCfg5 exampleDate
      "id2" "08:00 UTC" = ((none, none, []), exampleBotState) :=
  ⟨by decide,
   generate_daily_digest_refuses_existing_date exampleBotState exampleDigestPosts
     digestCfg5 exampleDate "id2" "08:00 UTC" (by decide)⟩

/-- Helper for C6: every section `digestLoop` emits carries the full
per-category hard slice — the first `max_posts` of the category's available
posts — independently of the remaining overall budget. -/
theorem digestLoop_hard_slice
    (m : Nat) (byCat : List (Option String × List BotPost)) :
    ∀ (order : List String) (total : Nat) (s : DigestSection),
      s ∈ (digestLoop m byCat order total).1 →
      ∃ catPosts sc, byCat.lookup (some s.category) = some catPosts ∧
        categoryConfig.lookup s.category = some sc ∧
        s.posts = catPosts.take sc.maxPosts := by
  intro order
  induction order with
  | nil =>
    intro total s hs
    simp [digestLoop] at hs
  | cons category rest ih =>
    intro total s hs
    rcases hl : byCat.lookup (some category) with _ | catPosts
    · simp only [digestLoop, hl] at hs
      exact ih total s hs
    · simp only [digestLoop, hl] at hs
      by_cases hne : catPosts ≠ []
      · rw [if_pos hne] at hs
        rcases hc : categoryConfig.lookup category with _ | sc
        · simp only [hc] at hs
          exact ih total s hs
        · simp only [hc] at hs
          by_cases hp : catPosts.take sc.maxPosts ≠ []
          · rw [if_pos hp] at hs
            by_cases hbreak : m ≤ total + (catPosts.take sc.maxPosts).length
            · rw [if_pos hbreak] at hs
              simp only [List.mem_singleton] at hs
              subst hs
              exact ⟨catPosts, sc, hl, hc, rfl⟩
            · rw [if_neg hbreak] at hs
              rcases List.mem_cons.mp hs with rfl | hs
              · exact ⟨catPosts, sc, hl, hc, rfl⟩
              · exact ih _ s hs
          · rw [if_neg hp] at hs
            exact ih total s hs
      · rw [if_neg hne] at hs
        exact ih total s hs

/-- C6: the digest loop takes each category's cap as a hard slice, appends
the whole slice, and only afterwards checks the running total against the
overall cap, stopping once it is reached. Concretely, with news (cap 4, 5
available), tool (cap 3, 1 available) and research (cap 3, 2 available) in
the default order and an overall cap of 5, the digest's post-id list is all
4 news ids followed by the 1 tool id, the research posts never being
reached; and with an overall cap of 3 the full 4-post news slice is still
included before stopping. -/
theorem digest_category_cap_accumulation :
    (∀ (m : Nat) (byCat : List (Option String × List BotPost))
       (order : List String) (total : Nat) (s : DigestSection),
       s ∈ (digestLoop m byCat order total).1 →
       ∃ catPosts sc, byCat.lookup (some s.category) = some catPosts ∧
         categoryConfig.lookup s.category = some sc ∧
         s.posts = catPosts.take sc.maxPosts) ∧
    (generate_daily_digest emptyBotState exampleDigestPosts digestCfg5 exampleDate
        "id1" "08:00 UTC").1.2.2 =
      ["news01", "news02", "news03", "news04", "tool01"] ∧
    (generate_daily_digest emptyBotState exampleDigestPosts digestCfg3 exampleDate
        "id1" "08:00 UTC").1.2.2 =
      ["news01", "news02", "news03", "news04"] := by
  refine ⟨fun m byCat order => digestLoop_hard_slice m byCat order, ?_, ?_⟩
  · decide
  · decide

/-- Witness for C6's hard-slice clause at a concrete category map. -/
theorem digest_category_cap_accumulation_witness :
    exampleSection ∈ (digestLoop 15 exampleByCat ["news"] 0).1 ∧
    ∃ catPosts sc, exampleByCat.lookup (some exampleSection.category) = some catPosts ∧
      categoryConfig.lookup exampleSection.category = some sc ∧
      exampleSection.posts = catPosts.take sc.maxPosts :=
  ⟨by decide,
   digest_category_cap_accumulation.1 15 exampleByCat ["news"] 0 exampleSection (by decide)⟩

/-- Helper for C7: every row the reply recursion stores has depth at least
1 and strictly below `max_comment_depth`, whatever the fuel. -/
theorem fetch_comment_replies_depth_bound
    (cfg : FetchConfig) (postId : String) :
    ∀ (fuel : Nat) (replies : List RComment) (pid : String) (depth : Nat),
      1 ≤ depth →
      ∀ p ∈ fetch_comment_replies cfg postId fuel replies pid depth,
        1 ≤ p.2 ∧ p.2 + 1 ≤ cfg.maxCommentDepth := by
  intro fuel
  induction fuel with
  | zero =>
    intro replies pid depth h1 p hp
    simp [fetch_comment_replies] at hp
  | succ fuel ih =>
    intro replies pid depth h1 p hp
    simp only [fetch_comment_replies] at hp
    by_cases hguard : cfg.maxCommentDepth ≤ depth
    · rw [if_pos hguard] at hp; simp at hp
    · rw [if_neg hguard] at hp
      rw [List.mem_flatMap] at hp
      obtain ⟨r, _hr, hpr⟩ := hp
      by_cases hinc : should_include_comment cfg r = true
      · rw [if_pos hinc] at hpr
        by_cases hst : store_comment_ok cfg r postId (some pid) = true
        · rw [if_pos hst] at hpr
          rcases List.mem_cons.mp hpr with rfl | hpr
          · constructor
            · simp only [storedDepth, Nat.min_def]
              split <;> omega
            · have hmin : storedDepth depth ≤ depth := Nat.min_le_right 10 depth
              simp only at hmin ⊢
              omega
          · by_cases hdesc : depth + 1 < cfg.maxCommentDepth
            · rw [if_pos hdesc] at hpr
              exact ih r.replies r.id (depth + 1) (by omega) p hpr
            · rw [if_neg hdesc] at hpr
              simp at hpr
        · rw [if_neg hst] at hpr; simp at hpr
      · rw [if_neg hinc] at hpr; simp at hpr

/-- Helper for C7: rows stored by the top-level loop are either top-level
(depth 0) or replies at depths 1 through `max_comment_depth - 1`. -/
theorem fetchTopLevelGo_depth_bound (cfg : FetchConfig) (postId : String) :
    ∀ (cs : List RComment) (processed : Nat) (p : String × Nat),
      p ∈ fetchTopLevelGo cfg postId cs processed →
      p.2 = 0 ∨ (1 ≤ p.2 ∧ p.2 + 1 ≤ cfg.maxCommentDepth) := by
  intro cs
  induction cs with
  | nil =>
    intro processed p hp
    simp [fetchTopLevelGo] at hp
  | cons c cs ih =>
    intro processed p hp
    simp only [fetchTopLevelGo] at hp
    by_cases hcap : cfg.maxCommentsPerPost ≤ processed
    · rw [if_pos hcap] at hp; simp at hp
    · rw [if_neg hcap] at hp
      by_cases hinc : should_include_comment cfg c = true
      · rw [if_pos hinc] at hp
        by_cases hst : store_comment_ok cfg c postId none = true
        · rw [if_pos hst] at hp
          rcases List.mem_cons.mp hp with rfl | hp
          · left; rfl
          · rcases List.mem_append.mp hp with hp | hp
            · by_cases hd : 0 < cfg.maxCommentDepth
              · rw [if_pos hd] at hp
                exact Or.inr
                  (fetch_comment_replies_depth_bound cfg postId cfg.maxCommentDepth
                    c.replies c.id 1 (le_refl 1) p hp)
              · rw [if_neg hd] at hp; simp at hp
            · exact ih (processed + 1) p hp
        · rw [if_neg hst] at hp
          exact ih processed p hp
      · rw [if_neg hinc] at hp
        exact ih processed p hp

/-- C7 counterexample: with `max_comment_depth = 2` (the default), a
filter-passing, storable reply two levels below a stored top-level comment
is not stored — only depths 0 and 1 appear — refuting "replies are stored
at depths 1 through d". -/
theorem fetch_comments_depth_counterexample :
    exampleFetchCfg2.maxCommentDepth = 2 ∧
    should_include_comment exampleFetchCfg2 exampleDepth2Comment = true ∧
    store_comment_ok exampleFetchCfg2 exampleDepth2Comment "post01" (some "c1c1c1") = true ∧
    fetch_submission_comments exampleFetchCfg2 "post01" [exampleCommentChain] =
      [("c0c0c0", 0), ("c1c1c1", 1)] := by
  refine ⟨rfl, by decide, by decide, by decide⟩

/-- C7 (amended): with `max_comment_depth = d`, the fetcher stores
top-level comments at depth 0 and recurses into replies for `d - 1`
additional levels only: every stored reply's depth lies in 1..`d - 1`
(so none at all when `d = 1`), each recursive call re-applying the filter
and re-checking the depth bound. Concretely, with `d = 3` and a chain of
filter-passing comments four levels deep, exactly the rows at depths 0, 1
and 2 are stored even though the depth-3 reply passes the filter. -/
theorem fetch_submission_comments_depths :
    (∀ (cfg : FetchConfig) (postId : String) (tops : List RComment),
       ∀ p ∈ fetch_submission_comments cfg postId tops,
         p.2 = 0 ∨ (1 ≤ p.2 ∧ p.2 + 1 ≤ cfg.maxCommentDepth)) ∧
    fetch_submission_comments exampleFetchCfg3 "post01" [exampleCommentChain] =
      [("c0c0c0", 0), ("c1c1c1", 1), ("c2c2c2", 2)] ∧
    should_include_comment exampleFetchCfg3 exampleDepth3Comment = true := by
  refine ⟨?_, by decide, by decide⟩
  intro cfg postId tops p hp
  rcases hb : cfg.fetchComments with _ | _
  · simp [fetch_submission_comments, hb] at hp
  · simp only [fetch_submission_comments, hb] at hp
    exact fetchTopLevelGo_depth_bound cfg postId tops 0 p hp

/-- Witness for C7 (amended) at the concrete depth-1 stored reply. -/
theorem fetch_submission_comments_depths_witness :
    (("c1c1c1", 1) ∈
      fetch_submission_comments exampleFetchCfg3 "post01" [exampleCommentChain]) ∧
    ((("c1c1c1", 1) : String × Nat).2 = 0 ∨
      (1 ≤ (("c1c1c1", 1) : String × Nat).2 ∧
        (("c1c1c1", 1) : String × Nat).2 + 1 ≤ exampleFetchCfg3.maxCommentDepth)) :=
  ⟨by decide,
   fetch_submission_comments_depths.1 exampleFetchCfg3 "post01" [exampleCommentChain]
     ("c1c1c1", 1) (by decide)⟩

/-- C9: on statistics whose category breakdown names a configured category
(here `news`), `generate_stats_message` does not render the statistics: the
`CATEGORY_CONFIG.get(category, {}).get('emoji', ...)` chain calls `.get` on
a `DigestSection` dataclass, the resulting `AttributeError` is swallowed by
the handler, and the fixed apology line is returned instead. -/
theorem generate_stats_message_attribute_error :
    exampleStats.categoryBreakdown = [("news", 5)] ∧
    categoryConfig.lookup "news" ≠ none ∧
    generate_stats_message exampleStats [] "12:00 UTC" =
      "\u00E2\u0152 Unable to generate statistics at this time." := by
  refine ⟨rfl, by decide, by decide⟩
